import Mathlib

/-!
Verification development for the tcp-quic-bench repository.

Modelling conventions (shallow embedding of the Go sources):
- Durations (Go time.Duration, converted via Seconds()) are modelled as
  rationals measured in seconds; float64 arithmetic is modelled exactly
  over the rationals, and math.Sqrt is modelled as Real.sqrt.  Go float
  division by zero yields NaN (no fault); in the rational model division
  by zero yields 0 (also no fault).
- External effects (dialing, syscalls, io.Copy) are modelled by passing
  their outcomes in explicitly as inputs; log.Printf calls are modelled
  as a list of emitted warning strings; log.Fatalf (which exits the
  process with non-zero status) is modelled as Except.error.
- Sources: cmd/benchmark/main.go (runClient, calculateStatistics,
  PrintResults), internal/client/client.go (RunTCPClient, RunQUICClient),
  internal/server/server.go (RunTCPServer per-connection handling).
-/

namespace TcpQuicBench

/-- Constant warmupRuns = 2 from main.go. -/
def warmupRuns : Nat := 2

/-- Constant measurementRuns = 10 from main.go. -/
def measurementRuns : Nat := 10

/-- Mean part of calculateStatistics (main.go): if the slice is empty return 0,
otherwise sum the durations with a running float accumulator and divide by the
length. -/
def calculateStatisticsMean (durations : List ℚ) : ℚ :=
  if durations.length = 0 then 0
  else (durations.foldl (· + ·) 0) / (durations.length : ℚ)

/-- Variance part of calculateStatistics (main.go): if the slice is empty return
0, otherwise accumulate the squared deviations from the mean with a running
float accumulator and divide by the length (the code divides sumSqDiff by
len(durations), not len-1). -/
def calculateStatisticsVariance (durations : List ℚ) : ℚ :=
  if durations.length = 0 then 0
  else
    let meanSeconds := (durations.foldl (· + ·) 0) / (durations.length : ℚ)
    (durations.foldl (fun acc d => acc + (d - meanSeconds) * (d - meanSeconds)) 0)
      / (durations.length : ℚ)

/-- Standard-deviation part of calculateStatistics (main.go): math.Sqrt of the
variance, modelled as Real.sqrt. -/
noncomputable def calculateStatisticsStdDev (durations : List ℚ) : ℝ :=
  Real.sqrt (calculateStatisticsVariance durations)

/-- Loop of PrintResults (main.go) that builds totalDurations: for each index i
below len(handshakeDurations) it appends handshakeDurations[i] +
dataTransferDurations[i].  Out-of-range access (impossible in the program,
where both slices are filled in lockstep) is modelled with getD. -/
def totalDurationsOf (handshakeDurations dataTransferDurations : List ℚ) : List ℚ :=
  (List.range handshakeDurations.length).foldl
    (fun acc i => acc ++ [handshakeDurations.getD i 0 + dataTransferDurations.getD i 0]) []

/-- Loop of PrintResults (main.go) that builds throughputs: for each total
duration, if its seconds value is positive, append
(float64(totalBytes) * 8) / (totalDurSeconds * 1e9); zero durations are
skipped (no append, and the source performs no log call here). -/
def throughputsOf (totalBytes : ℤ) (totalDurations : List ℚ) : List ℚ :=
  totalDurations.foldl
    (fun acc totalDur =>
      if 0 < totalDur then acc ++ [((totalBytes : ℚ) * 8) / (totalDur * 1000000000)]
      else acc) []

/-- Mean-throughput computation of PrintResults (main.go): sum the throughputs
and divide by their count.  When the throughput list is empty Go computes
0.0/0.0 = NaN (printed, no fault); the rational model gives 0/0 = 0 (also no
fault). -/
def meanThroughputOf (totalBytes : ℤ) (totalDurations : List ℚ) : ℚ :=
  ((throughputsOf totalBytes totalDurations).foldl (· + ·) 0)
    / ((throughputsOf totalBytes totalDurations).length : ℚ)

/-- Log lines emitted by PrintResults (main.go lines 129-177): the function
body contains no log call at all; in particular the zero-duration branch of
the throughput loop skips the trial silently. -/
def printResultsLogLines (_totalBytes : ℤ)
    (_handshakeDurations _dataTransferDurations : List ℚ) : List String := []

/-- Outcomes of the external operations performed by RunTCPClient
(internal/client/client.go), passed in as inputs: each Bool says whether the
corresponding call succeeds, copyResult is what io.Copy(io.Discard, conn)
returns (an error, or the byte count read up to end-of-stream), and the two
durations are the elapsed wall-clock times the two time.Since calls observe. -/
structure TCPClientEnv where
  dialOk : Bool
  isTCPConn : Bool
  syscallConnOk : Bool
  controlOk : Bool
  setsockoptOk : Bool
  tlsHandshakeOk : Bool
  copyResult : Except String ℤ
  handshakeElapsed : ℚ
  transferElapsed : ℚ

/-- Result of one client run: the returned quadruple collapsed to
Except (error, or bytesCopied with the two durations), together with the
log.Printf warnings emitted along the way. -/
structure TCPClientResult where
  res : Except String (ℤ × ℚ × ℚ)
  warnings : List String

/-- RunTCPClient (internal/client/client.go) traced step by step: dial, the
*net.TCPConn type assertion, SyscallConn, Control with the TCP_MAXSEG
setsockopt callback (a setsockopt failure is only logged inside the callback
and does not change the returned error), the TLS handshake, then
io.Copy(io.Discard, conn).  The byte count returned by a successful copy is
passed through unchanged: the function performs no comparison of bytesCopied
against any configured payload size. -/
def RunTCPClient (env : TCPClientEnv) : TCPClientResult :=
  if !env.dialOk then ⟨.error "failed to dial TCP", []⟩
  else if !env.isTCPConn then ⟨.error "failed to get TCP connection", []⟩
  else if !env.syscallConnOk then ⟨.error "failed to get syscall connection", []⟩
  else if !env.controlOk then ⟨.error "failed to control raw connection", []⟩
  else
    let warnings := if env.setsockoptOk then [] else ["failed to set TCP_MAXSEG"]
    if !env.tlsHandshakeOk then ⟨.error "failed to perform TLS handshake", warnings⟩
    else
      match env.copyResult with
      | .error _ => ⟨.error "failed to receive data over TCP", warnings⟩
      | .ok bytesCopied =>
          ⟨.ok (bytesCopied, env.handshakeElapsed, env.transferElapsed), warnings⟩

/-- Timing skeleton of RunQUICClient (internal/client/client.go), with the
wall-clock advance of each blocking step given as an input.  The clock starts
at handshakeStartTime = 0; quic.DialAddr advances it by dialDur and
handshakeDuration is taken by time.Since immediately after DialAddr returns;
conn.AcceptStream then advances the clock by acceptDur; only then is
dataTransferStartTime recorded, io.Copy advances the clock by copyDur, and
dataTransferDuration is taken by time.Since(dataTransferStartTime). -/
structure QUICClientTiming where
  handshakeDuration : ℚ
  dataTransferDuration : ℚ
  acceptStreamStart : ℚ
  acceptStreamEnd : ℚ
  dataTransferStart : ℚ

/-- RunQUICClient (internal/client/client.go) timing model, tracing the order
of the timestamp reads in the source. -/
def RunQUICClientTiming (dialDur acceptDur copyDur : ℚ) : QUICClientTiming :=
  let handshakeStartTime : ℚ := 0
  let tAfterDial := handshakeStartTime + dialDur
  let handshakeDuration := tAfterDial - handshakeStartTime
  let tAfterAccept := tAfterDial + acceptDur
  let dataTransferStartTime := tAfterAccept
  let tAfterCopy := dataTransferStartTime + copyDur
  let dataTransferDuration := tAfterCopy - dataTransferStartTime
  { handshakeDuration := handshakeDuration
    dataTransferDuration := dataTransferDuration
    acceptStreamStart := tAfterDial
    acceptStreamEnd := tAfterAccept
    dataTransferStart := dataTransferStartTime }

/-- Outcomes of the per-connection operations of the RunTCPServer accept loop
(internal/server/server.go), passed in as inputs. -/
structure TCPServerConnEnv where
  isTCPConn : Bool
  syscallConnOk : Bool
  controlOk : Bool
  setsockoptOk : Bool
  writeOk : Bool
deriving DecidableEq

/-- What one iteration of the server accept loop does with a connection:
either the loop continues (logging the listed lines along the way) — the only
behaviour the source exhibits, since every per-connection failure is
log-and-continue — or the server process would stop (fatalStop), a
constructor the per-connection code never produces. -/
inductive ServerConnStep where
  | continueLoop (handled : Bool) (logLines : List String)
  | fatalStop (msg : String)
deriving DecidableEq

/-- Per-connection body of the RunTCPServer accept loop
(internal/server/server.go lines 50-98): failed type assertion, SyscallConn
or Control errors log and close the connection then continue; a setsockopt
failure inside the Control callback is only logged and the connection
proceeds to the TLS handshake and the data write; a write failure in the
handler goroutine is logged and the connection closed.  No branch stops the
server process. -/
def handleTCPServerConn (env : TCPServerConnEnv) : ServerConnStep :=
  if !env.isTCPConn then .continueLoop false ["failed to get TCP connection"]
  else if !env.syscallConnOk then .continueLoop false ["failed to get syscall connection"]
  else
    let warnings := if env.setsockoptOk then [] else ["failed to set TCP_MAXSEG"]
    if !env.controlOk then .continueLoop false (warnings ++ ["failed to control raw connection"])
    else if !env.writeOk then .continueLoop true (warnings ++ ["failed to write data to client"])
    else .continueLoop true warnings

/-- State threaded through the runClient loop (main.go): totalBytes (captured
from the first trial) and the two retained duration slices. -/
structure RunClientState where
  totalBytes : ℤ
  handshakeDurations : List ℚ
  dataTransferDurations : List ℚ
deriving DecidableEq

/-- Trial loop of runClient (main.go lines 66-106): runs
warmupRuns + measurementRuns trials through the one trial function (the same
code path for warmup and measurement trials); any trial error hits log.Fatalf,
modelled as Except.error (the process exits with non-zero status); trial 0
supplies totalBytes; a trial's durations are appended only when i >=
warmupRuns. -/
def runClientLoop (trial : Nat → Except String (ℤ × ℚ × ℚ)) :
    Except String RunClientState :=
  (List.range (warmupRuns + measurementRuns)).foldlM
    (fun st i => do
      let (bytes, hsDur, dtDur) ← trial i
      let st := if i = 0 then { st with totalBytes := bytes } else st
      if warmupRuns ≤ i then
        pure { st with
                handshakeDurations := st.handshakeDurations ++ [hsDur]
                dataTransferDurations := st.dataTransferDurations ++ [dtDur] }
      else
        pure st)
    ⟨0, [], []⟩

/-- Payload size from internal/data/data.go: const size = 1 << 30 (1 GiB). -/
def payloadSize : ℤ := 1073741824

/-! Helper lemmas about the loop accumulators used by the Go code. -/

lemma foldl_append_eq_map {α β : Type} (f : α → β) (l : List α) (acc : List β) :
    l.foldl (fun a x => a ++ [f x]) acc = acc ++ l.map f := by
  induction l generalizing acc with
  | nil => simp
  | cons x xs ih => simp [ih]

lemma foldl_add_eq_sum (l : List ℚ) (c : ℚ) :
    l.foldl (· + ·) c = c + l.sum := by
  induction l generalizing c with
  | nil => simp
  | cons x xs ih =>
      rw [List.foldl_cons, ih, List.sum_cons]
      ring

lemma foldl_add_apply_eq_sum (f : ℚ → ℚ) (l : List ℚ) (c : ℚ) :
    l.foldl (fun acc d => acc + f d) c = c + (l.map f).sum := by
  induction l generalizing c with
  | nil => simp
  | cons x xs ih =>
      rw [List.foldl_cons, ih, List.map_cons, List.sum_cons]
      ring

lemma foldl_ite_append_eq_filter_map (p : ℚ → Prop) [DecidablePred p] (g : ℚ → ℚ)
    (l : List ℚ) (acc : List ℚ) :
    l.foldl (fun a d => if p d then a ++ [g d] else a) acc
      = acc ++ (l.filter (fun d => decide (p d))).map g := by
  induction l generalizing acc with
  | nil => simp
  | cons x xs ih =>
      by_cases hx : p x <;> simp [List.foldl_cons, hx, ih, List.filter_cons]

lemma throughputsOf_eq_filter_map (totalBytes : ℤ) (totalDurations : List ℚ) :
    throughputsOf totalBytes totalDurations
      = (totalDurations.filter (fun d => decide (0 < d))).map
          (fun d => ((totalBytes : ℚ) * 8) / (d * 1000000000)) := by
  unfold throughputsOf
  rw [foldl_ite_append_eq_filter_map (fun d => 0 < d)
    (fun d => ((totalBytes : ℚ) * 8) / (d * 1000000000)) totalDurations []]
  simp

lemma totalDurationsOf_eq_map (handshakeDurations dataTransferDurations : List ℚ) :
    totalDurationsOf handshakeDurations dataTransferDurations
      = (List.range handshakeDurations.length).map
          (fun i => handshakeDurations.getD i 0 + dataTransferDurations.getD i 0) := by
  unfold totalDurationsOf
  rw [foldl_append_eq_map]
  simp

/-! Claim theorems. -/

/-- C10: applying the statistics engine to an empty duration sequence returns
mean 0 and standard deviation 0, without error or division fault
(calculateStatistics returns 0, 0 on the length-0 guard before any division). -/
theorem empty_sequence_statistics_zero :
    calculateStatisticsMean [] = 0 ∧ calculateStatisticsStdDev [] = 0 := by
  constructor
  · simp [calculateStatisticsMean]
  · simp [calculateStatisticsStdDev, calculateStatisticsVariance]

/-- C7: for every trial count N at least 1 and every duration D, applying the
statistics engine to N copies of D yields mean exactly D and standard
deviation exactly 0. -/
theorem identical_trials_mean_eq_input_stddev_zero (N : Nat) (D : ℚ) (h : 1 ≤ N) :
    calculateStatisticsMean (List.replicate N D) = D
    ∧ calculateStatisticsStdDev (List.replicate N D) = 0 := by
  have hN : (List.replicate N D).length = N := List.length_replicate N D
  have hNne : N ≠ 0 := Nat.one_le_iff_ne_zero.mp h
  have hQ : (N : ℚ) ≠ 0 := Nat.cast_ne_zero.mpr hNne
  have hsum : (List.replicate N D).foldl (· + ·) 0 = (N : ℚ) * D := by
    rw [foldl_add_eq_sum, List.sum_replicate, zero_add, nsmul_eq_mul]
  have hmean : calculateStatisticsMean (List.replicate N D) = D := by
    unfold calculateStatisticsMean
    rw [hN, if_neg hNne, hsum]
    field_simp
  refine ⟨hmean, ?_⟩
  have hvar : calculateStatisticsVariance (List.replicate N D) = 0 := by
    unfold calculateStatisticsVariance
    rw [hN, if_neg hNne]
    simp only [hsum]
    have hDD : (N : ℚ) * D / (N : ℚ) = D := by field_simp
    simp only [hDD]
    rw [foldl_add_apply_eq_sum]
    simp [List.map_replicate]
  rw [calculateStatisticsStdDev, hvar]
  simp

/-- C4: for every non-empty duration sequence, the standard deviation computed
by the statistics engine is the population standard deviation: the square root
of the sum of squared deviations from the mean divided by N (the retained
trial count), not N - 1. -/
theorem stddev_is_population_stddev (durs : List ℚ) (h : durs ≠ []) :
    calculateStatisticsStdDev durs
      = Real.sqrt
          ((((durs.map (fun d => (d - calculateStatisticsMean durs) ^ 2)).sum
              / (durs.length : ℚ) : ℚ) : ℝ)) := by
  have hne : durs.length ≠ 0 := by
    simpa [List.length_eq_zero] using h
  have key : calculateStatisticsVariance durs
      = (durs.map (fun d => (d - calculateStatisticsMean durs) ^ 2)).sum
          / (durs.length : ℚ) := by
    unfold calculateStatisticsVariance
    rw [if_neg hne]
    have hmean : (durs.foldl (· + ·) 0) / (durs.length : ℚ)
        = calculateStatisticsMean durs := by
      unfold calculateStatisticsMean
      rw [if_neg hne]
    simp only [hmean]
    rw [foldl_add_apply_eq_sum, zero_add]
    have hfun : (fun d => (d - calculateStatisticsMean durs) * (d - calculateStatisticsMean durs))
        = (fun d : ℚ => (d - calculateStatisticsMean durs) ^ 2) := by
      funext d
      ring
    rw [hfun]
  rw [calculateStatisticsStdDev, key]

/-- Witness for C7 at N = 3, D = 5. -/
theorem identical_trials_witness :
    1 ≤ 3
    ∧ (calculateStatisticsMean (List.replicate 3 (5 : ℚ)) = 5
        ∧ calculateStatisticsStdDev (List.replicate 3 (5 : ℚ)) = 0) :=
  ⟨by decide, identical_trials_mean_eq_input_stddev_zero 3 5 (by decide)⟩

/-- Witness for C4 at durs = [1, 3]. -/
theorem stddev_witness :
    ([1, 3] : List ℚ) ≠ []
    ∧ calculateStatisticsStdDev [1, 3]
        = Real.sqrt
            (((([1, 3] : List ℚ).map
                (fun d => (d - calculateStatisticsMean [1, 3]) ^ 2)).sum
              / (([1, 3] : List ℚ).length : ℚ) : ℚ)) :=
  ⟨by decide, stddev_is_population_stddev [1, 3] (by decide)⟩

/-- C2: for every retained trial sequence whose total durations are positive,
the mean throughput reported is the arithmetic mean of the per-trial
throughput values, each equal to bytes * 8 / totalDurationSeconds divided by
1e9 (Gbps); and the per-trial throughput the engine computes for
bytes = 1073741824 and total duration 1 s is within 1e-3 of 8.5899 Gbps. -/
theorem mean_throughput_is_mean_of_per_trial_values :
    (∀ (totalBytes : ℤ) (totalDurations : List ℚ),
      (∀ d ∈ totalDurations, 0 < d) →
      meanThroughputOf totalBytes totalDurations
        = (totalDurations.map
            (fun d => ((totalBytes : ℚ) * 8) / (d * 1000000000))).sum
            / (totalDurations.length : ℚ))
    ∧ throughputsOf 1073741824 [1] = [8589934592 / 1000000000]
    ∧ |(8589934592 / 1000000000 : ℚ) - 85899 / 10000| < 1 / 1000 := by
  refine ⟨?_, ?_, by rw [abs_lt]; constructor <;> norm_num⟩
  · intro totalBytes totalDurations hpos
    have hfil : totalDurations.filter (fun d => decide (0 < d)) = totalDurations := by
      rw [List.filter_eq_self]
      intro a ha
      simpa using hpos a ha
    unfold meanThroughputOf
    rw [throughputsOf_eq_filter_map, hfil, foldl_add_eq_sum, zero_add, List.length_map]
  · rw [throughputsOf_eq_filter_map]
    norm_num

/-- Witness for C2 at totalBytes = 16, totalDurations = [1, 2]. -/
theorem mean_throughput_witness :
    (∀ d ∈ ([1, 2] : List ℚ), 0 < d)
    ∧ meanThroughputOf 16 [1, 2]
        = (([1, 2] : List ℚ).map
            (fun d => ((16 : ℤ) : ℚ) * 8 / (d * 1000000000))).sum
            / ((([1, 2] : List ℚ).length : ℕ) : ℚ) :=
  ⟨by decide, mean_throughput_is_mean_of_per_trial_values.1 16 [1, 2] (by decide)⟩

/-- C3 counterexample: on the retained series with handshake durations [0, 1]
and transfer durations [0, 1], trial 0 has total duration zero and is indeed
excluded from the throughput list, but PrintResults emits no log line at all —
no warning is recorded for the excluded trial, contrary to the claim. -/
theorem zero_duration_warning_counterexample :
    totalDurationsOf [0, 1] [0, 1] = [0, 2]
    ∧ throughputsOf 1073741824 (totalDurationsOf [0, 1] [0, 1])
        = throughputsOf 1073741824 [2]
    ∧ printResultsLogLines 1073741824 [0, 1] [0, 1] = [] := by
  have htot : totalDurationsOf [0, 1] [0, 1] = [0, 2] := by
    norm_num [totalDurationsOf_eq_map, List.range_succ]
  refine ⟨htot, ?_, rfl⟩
  rw [htot, throughputsOf_eq_filter_map, throughputsOf_eq_filter_map]
  norm_num

/-- C3 amended: every zero-duration trial is excluded from the throughput
average and the mean-throughput computation is total (it never faults, even
when every retained trial has zero total duration, where it yields the
degenerate 0/0 value — NaN in the implementation, 0 in the rational model);
however no warning is recorded: the zero-duration trial is skipped silently. -/
theorem zero_duration_trials_excluded_silently
    (totalBytes : ℤ) (totalDurations : List ℚ) (n : Nat)
    (handshakeDurations dataTransferDurations : List ℚ) :
    throughputsOf totalBytes totalDurations
      = throughputsOf totalBytes (totalDurations.filter (fun d => decide (0 < d)))
    ∧ meanThroughputOf totalBytes (List.replicate n 0) = 0
    ∧ printResultsLogLines totalBytes handshakeDurations dataTransferDurations = [] := by
  refine ⟨?_, ?_, rfl⟩
  · rw [throughputsOf_eq_filter_map, throughputsOf_eq_filter_map, List.filter_filter]
    simp
  · have hempty : throughputsOf totalBytes (List.replicate n 0) = [] := by
      rw [throughputsOf_eq_filter_map]
      have : (List.replicate n (0 : ℚ)).filter (fun d => decide (0 < d)) = [] := by
        rw [List.filter_eq_nil_iff]
        intro a ha
        rw [List.eq_of_mem_replicate ha]
        simp
      rw [this]
      simp
    unfold meanThroughputOf
    rw [hempty]
    simp

/-- C6: for every retained trial i, the total duration aggregated by the
statistics engine equals handshakeDurations[i] + dataTransferDurations[i]
exactly, computed pairwise per trial before aggregation (PrintResults builds
totalDurations element by element from the two retained slices). -/
theorem total_duration_is_pairwise_sum (handshakeDurations dataTransferDurations : List ℚ)
    (_h : dataTransferDurations.length = handshakeDurations.length) :
    (totalDurationsOf handshakeDurations dataTransferDurations).length
        = handshakeDurations.length
    ∧ ∀ i, i < handshakeDurations.length →
        (totalDurationsOf handshakeDurations dataTransferDurations).getD i 0
          = handshakeDurations.getD i 0 + dataTransferDurations.getD i 0 := by
  rw [totalDurationsOf_eq_map]
  constructor
  · simp
  · intro i hi
    simp [List.getD_eq_getElem?_getD, List.getElem?_map, List.getElem?_range, hi]

/-- Witness for C6 at handshakeDurations = [1, 2], dataTransferDurations = [3, 4]. -/
theorem total_duration_witness :
    ([3, 4] : List ℚ).length = ([1, 2] : List ℚ).length
    ∧ ((totalDurationsOf [1, 2] [3, 4]).length = ([1, 2] : List ℚ).length
        ∧ ∀ i, i < ([1, 2] : List ℚ).length →
            (totalDurationsOf [1, 2] [3, 4]).getD i 0
              = ([1, 2] : List ℚ).getD i 0 + ([3, 4] : List ℚ).getD i 0) :=
  ⟨by decide, total_duration_is_pairwise_sum [1, 2] [3, 4] (by decide)⟩

/-- C5: with warmupRuns = 2 and measurementRuns = 10, all 12 trials go through
the one trial function (the same code path); exactly the last 10 trial results
are retained (the warmup prefix of 2 never appears in the retained series);
and a failure in warmup trial 1 aborts the whole run, showing warmup trials
are really executed. -/
theorem warmup_prefix_discarded (f : Nat → ℤ × ℚ × ℚ) :
    runClientLoop (fun i => .ok (f i))
      = .ok ⟨(f 0).1,
          ((List.range (warmupRuns + measurementRuns)).drop warmupRuns).map
            (fun i => (f i).2.1),
          ((List.range (warmupRuns + measurementRuns)).drop warmupRuns).map
            (fun i => (f i).2.2)⟩
    ∧ (((List.range (warmupRuns + measurementRuns)).drop warmupRuns).map
          (fun i => (f i).2.1)).length = measurementRuns
    ∧ runClientLoop (fun i => if i = 1 then .error "warmup trial failed" else .ok (f i))
      = .error "warmup trial failed" := by
  refine ⟨rfl, ?_, rfl⟩
  simp [warmupRuns, measurementRuns]

/-- C1 counterexample: a run in which every trial's io.Copy ends at
end-of-stream after only 100 bytes (far below the 1 GiB payload size)
completes successfully, recording 100 as the byte count — the claim that a
short transfer always surfaces an error and aborts the run is false. -/
theorem short_transfer_counterexample :
    runClientLoop (fun _ => .ok (100, 1, 1))
      = .ok ⟨100, List.replicate 10 1, List.replicate 10 1⟩
    ∧ (100 : ℤ) < payloadSize :=
  ⟨rfl, by decide⟩

/-- C1 amended: a read error in io.Copy surfaces as a transfer error and any
trial error aborts the client run (log.Fatalf, non-zero exit); but the client
never compares the byte count against the configured payload size: a short
transfer that ends in a clean end-of-stream is returned as a success with the
smaller byte count and recorded as a successful trial. -/
theorem short_transfer_amended (env : TCPClientEnv) (n : ℤ) (e : String)
    (hd : env.dialOk = true) (ht : env.isTCPConn = true)
    (hsc : env.syscallConnOk = true) (hc : env.controlOk = true)
    (hh : env.tlsHandshakeOk = true) :
    (env.copyResult = .error e →
      (RunTCPClient env).res = .error "failed to receive data over TCP")
    ∧ (env.copyResult = .ok n →
      (RunTCPClient env).res = .ok (n, env.handshakeElapsed, env.transferElapsed))
    ∧ runClientLoop (fun _ => .error "failed to receive data over TCP")
        = .error "failed to receive data over TCP" := by
  refine ⟨?_, ?_, rfl⟩
  · intro hcp
    simp [RunTCPClient, hd, ht, hsc, hc, hh, hcp]
  · intro hcp
    simp [RunTCPClient, hd, ht, hsc, hc, hh, hcp]

/-- Witness for C1 amended at a concrete environment whose copy returns 100
bytes. -/
theorem short_transfer_amended_witness :
    ((⟨true, true, true, true, true, true, .ok 100, 1, 1⟩ : TCPClientEnv).copyResult
        = .error "x" →
      (RunTCPClient ⟨true, true, true, true, true, true, .ok 100, 1, 1⟩).res
        = .error "failed to receive data over TCP")
    ∧ ((⟨true, true, true, true, true, true, .ok 100, 1, 1⟩ : TCPClientEnv).copyResult
        = .ok 100 →
      (RunTCPClient ⟨true, true, true, true, true, true, .ok 100, 1, 1⟩).res
        = .ok (100, 1, 1))
    ∧ runClientLoop (fun _ => .error "failed to receive data over TCP")
        = .error "failed to receive data over TCP" :=
  short_transfer_amended ⟨true, true, true, true, true, true, .ok 100, 1, 1⟩ 100 "x"
    rfl rfl rfl rfl rfl

/-- C8 counterexample: with a dial taking 1 s, a stream accept taking 5 s and
a copy taking 2 s, RunQUICClient reports a handshake duration of 1 s — not
1 + 5 s — because time.Since(handshakeStartTime) is taken immediately after
DialAddr returns, before AcceptStream; so the accept time is not counted
toward the handshake duration as the claim states. -/
theorem accept_stream_timing_counterexample :
    (RunQUICClientTiming 1 5 2).handshakeDuration = 1
    ∧ ¬ (RunQUICClientTiming 1 5 2).handshakeDuration = 1 + 5
    ∧ (RunQUICClientTiming 1 5 2).dataTransferDuration = 2 := by
  refine ⟨?_, ?_, ?_⟩ <;> norm_num [RunQUICClientTiming]

/-- C8 amended: accepting the first inbound stream occurs after dialing
completes and before the transfer timer starts, and its elapsed time is
counted toward neither the handshake duration (captured immediately after
DialAddr) nor the transfer duration (whose timer starts only after
AcceptStream returns). -/
theorem accept_stream_excluded_from_both_phases (dialDur acceptDur copyDur : ℚ) :
    (RunQUICClientTiming dialDur acceptDur copyDur).handshakeDuration = dialDur
    ∧ (RunQUICClientTiming dialDur acceptDur copyDur).dataTransferDuration = copyDur
    ∧ (RunQUICClientTiming dialDur acceptDur copyDur).acceptStreamStart = dialDur
    ∧ (RunQUICClientTiming dialDur acceptDur copyDur).dataTransferStart
        = (RunQUICClientTiming dialDur acceptDur copyDur).acceptStreamEnd := by
  refine ⟨?_, ?_, ?_, rfl⟩ <;> simp [RunQUICClientTiming]

/-- C9: when setting TCP_MAXSEG fails on a connection, the client logs the
failure as a warning and the run proceeds unaligned to a successful result;
the server likewise logs the warning, proceeds to handle the connection, and
no per-connection outcome ever stops the server process. -/
theorem segment_alignment_failure_is_nonfatal
    (cenv : TCPClientEnv) (n : ℤ) (senv : TCPServerConnEnv)
    (hd : cenv.dialOk = true) (ht : cenv.isTCPConn = true)
    (hsc : cenv.syscallConnOk = true) (hc : cenv.controlOk = true)
    (hm : cenv.setsockoptOk = false) (hh : cenv.tlsHandshakeOk = true)
    (hcp : cenv.copyResult = .ok n)
    (sit : senv.isTCPConn = true) (ssc : senv.syscallConnOk = true)
    (sct : senv.controlOk = true) (smseg : senv.setsockoptOk = false) :
    (RunTCPClient cenv).res = .ok (n, cenv.handshakeElapsed, cenv.transferElapsed)
    ∧ (RunTCPClient cenv).warnings = ["failed to set TCP_MAXSEG"]
    ∧ handleTCPServerConn senv
        = .continueLoop true
            (["failed to set TCP_MAXSEG"]
              ++ if senv.writeOk then [] else ["failed to write data to client"])
    ∧ ∀ (env2 : TCPServerConnEnv) (msg : String),
        handleTCPServerConn env2 ≠ .fatalStop msg := by
  refine ⟨?_, ?_, ?_, ?_⟩
  · simp [RunTCPClient, hd, ht, hsc, hc, hm, hh, hcp]
  · simp [RunTCPClient, hd, ht, hsc, hc, hm, hh, hcp]
  · cases hw : senv.writeOk <;>
      simp [handleTCPServerConn, sit, ssc, sct, smseg, hw]
  · intro env2 msg
    unfold handleTCPServerConn
    split_ifs <;> simp

/-- Witness for C9 at a concrete failing-setsockopt client environment and
server connection environment. -/
theorem segment_alignment_witness :
    (RunTCPClient ⟨true, true, true, true, false, true, .ok 42, 2, 3⟩).res = .ok (42, 2, 3)
    ∧ (RunTCPClient ⟨true, true, true, true, false, true, .ok 42, 2, 3⟩).warnings
        = ["failed to set TCP_MAXSEG"]
    ∧ handleTCPServerConn ⟨true, true, true, false, true⟩
        = .continueLoop true
            (["failed to set TCP_MAXSEG"]
              ++ if (⟨true, true, true, false, true⟩ : TCPServerConnEnv).writeOk then []
                 else ["failed to write data to client"])
    ∧ ∀ (env2 : TCPServerConnEnv) (msg : String),
        handleTCPServerConn env2 ≠ .fatalStop msg :=
  segment_alignment_failure_is_nonfatal
    ⟨true, true, true, true, false, true, .ok 42, 2, 3⟩ 42 ⟨true, true, true, false, true⟩
    rfl rfl rfl rfl rfl rfl rfl rfl rfl rfl rfl

end TcpQuicBench
